import Mathlib

/-!
Shallow embedding of `src/app/routers/products.py` (FastAPI products router)
and the data model it operates on, together with theorems checking the
natural-language specification against this embedding.

The router's six handlers are translated as pure functions on an explicit
database state.  SQLAlchemy queries become list operations:
`db.scalars(select(M).where(...)).first()` is `List.find?` with the same
predicate, `.all()` is `List.filter`, and an ORM `update(...).where(...)`
statement is a `List.map` that rewrites every matching row.  An
`HTTPException` raise is an `Except.error` carrying the status code's error
class and the exact detail string from the source.  Each handler returns the
response together with the database state after the call, so that frame
properties ("the state is unchanged on failure", "categories are never
written") are real theorems rather than artifacts of the encoding.
-/

namespace Ecom

/-- A category row.  `id` and `is_active` are the fields the router reads
(`app/models/categories.py` is not part of the router source; the spec's data
model lists exactly these plus opaque descriptive fields, collapsed here into
`payload`). -/
structure Category where
  id : Nat
  is_active : Bool
  payload : Nat
deriving Repr, DecidableEq

/-- A product row: unique integer `id`, foreign key `category_id`, soft-delete
flag `is_active`, and the opaque descriptive fields (name, price, ...)
collapsed into `payload`. -/
structure Product where
  id : Nat
  category_id : Nat
  is_active : Bool
  payload : Nat
deriving Repr, DecidableEq

/-- Modelled from the spec: the `ProductCreate` request schema
(`app/schemas.py` is not under `src/`).  Per §4.4/§4.5 the input supplies all
mutable Product fields including `category_id`; `id` and `is_active` are not
client-supplied (the id is assigned by the store, `is_active` defaults to
true on create and is flipped only by delete). -/
structure ProductCreate where
  category_id : Nat
  payload : Nat
deriving Repr, DecidableEq

/-- The database state seen by the router: the two tables. -/
structure DB where
  categories : List Category
  products : List Product
deriving Repr, DecidableEq

/-- The error classes the router raises: `notFound` is HTTP 404,
`badRequest` is HTTP 400.  The detail string is carried verbatim. -/
inductive ApiError where
  | notFound (detail : String)
  | badRequest (detail : String)
deriving Repr, DecidableEq

/-- Modelled from the spec: id assignment for a new Product row
(`app/models/products.py` with its primary-key column is not under `src/`;
§4.4 requires "assign a new unique identifier").  One more than the largest
existing product id. -/
def fresh_id (db : DB) : Nat :=
  (db.products.map Product.id).foldr max 0 + 1

/-- `GET /products/`: all products with `is_active = true`.  Never fails,
never writes. -/
def get_all_products (db : DB) : Except ApiError (List Product) × DB :=
  (Except.ok (db.products.filter (fun p => p.is_active)), db)

/-- `POST /products/`: validate that the referenced category exists and is
active (400 otherwise), then insert a new row built from the request with a
fresh id and `is_active = true` (the model's column default; the row object
is also the response). -/
def create_product (product : ProductCreate) (db : DB) :
    Except ApiError Product × DB :=
  match db.categories.find?
      (fun c => c.id == product.category_id && c.is_active) with
  | none => (Except.error (ApiError.badRequest "Category not found or inactive"), db)
  | some _ =>
      let db_product : Product :=
        { id := fresh_id db
          category_id := product.category_id
          is_active := true
          payload := product.payload }
      (Except.ok db_product, { db with products := db.products ++ [db_product] })

/-- `GET /products/category/{category_id}`: validate that the category exists
and is active (404 otherwise), then return the active products of that
category.  Never writes. -/
def get_products_by_category (category_id : Nat) (db : DB) :
    Except ApiError (List Product) × DB :=
  match db.categories.find? (fun c => c.id == category_id && c.is_active) with
  | none => (Except.error (ApiError.notFound "Category not found or inactive"), db)
  | some _ =>
      (Except.ok (db.products.filter
        (fun p => p.category_id == category_id && p.is_active)), db)

/-- `GET /products/{product_id}`: find the active product (404 otherwise),
then check its category is active (400 otherwise), then return the product.
Never writes. -/
def get_product (product_id : Nat) (db : DB) :
    Except ApiError Product × DB :=
  match db.products.find? (fun p => p.id == product_id && p.is_active) with
  | none => (Except.error (ApiError.notFound "Product not found or inactive"), db)
  | some db_product =>
      match db.categories.find?
          (fun c => c.id == db_product.category_id && c.is_active) with
      | none => (Except.error (ApiError.badRequest "Category not found or inactive"), db)
      | some _ => (Except.ok db_product, db)

/-- The effect of `update(ProductModel).values(**product.model_dump())` on
one row: every request field is written, `id` and `is_active` are untouched. -/
def apply_update (product : ProductCreate) (p : Product) : Product :=
  { p with category_id := product.category_id, payload := product.payload }

/-- `PUT /products/{product_id}`: find the active product (404 otherwise),
check its *current* category is active (400 otherwise; the request's new
`category_id` is never validated), then run an UPDATE over every row with the
given id (the statement's WHERE clause filters on id only) and return the
row.  The source returns the ORM object fetched before the UPDATE, but
SQLAlchemy's session synchronization applies the UPDATE's values to that
in-memory object, so the response carries the post-update field values. -/
def update_product (product_id : Nat) (product : ProductCreate) (db : DB) :
    Except ApiError Product × DB :=
  match db.products.find? (fun p => p.id == product_id && p.is_active) with
  | none => (Except.error (ApiError.notFound "Product not found or inactive"), db)
  | some db_product =>
      match db.categories.find?
          (fun c => c.id == db_product.category_id && c.is_active) with
      | none => (Except.error (ApiError.badRequest "Category not found or inactive"), db)
      | some _ =>
          let products2 := db.products.map
            (fun p => if p.id == product_id then apply_update product p else p)
          (Except.ok (apply_update product db_product),
           { db with products := products2 })

/-- `DELETE /products/{product_id}`: find the active product (404 otherwise
— no category check in this handler), then run an UPDATE setting
`is_active = false` on every row with the given id and return the fixed
status/message object. -/
def delete_product (product_id : Nat) (db : DB) :
    Except ApiError (String × String) × DB :=
  match db.products.find? (fun p => p.id == product_id && p.is_active) with
  | none => (Except.error (ApiError.notFound "Product not found or inactive"), db)
  | some _ =>
      let products2 := db.products.map
        (fun p => if p.id == product_id then { p with is_active := false } else p)
      (Except.ok ("success", "Product marked as inactive"),
       { db with products := products2 })

/-! ## Concrete states used by witnesses and counterexamples -/

/-- A small concrete store: category 1 active, category 2 inactive; product 10
active in category 1, product 11 active in the inactive category 2, product 12
soft-deleted in category 1. -/
def exDB : DB :=
  { categories := [{ id := 1, is_active := true, payload := 0 },
                   { id := 2, is_active := false, payload := 0 }],
    products := [{ id := 10, category_id := 1, is_active := true, payload := 5 },
                 { id := 11, category_id := 2, is_active := true, payload := 6 },
                 { id := 12, category_id := 1, is_active := false, payload := 7 }] }

/-! ## Helper lemmas -/

/-- Every element of a `Nat` list is bounded by its `foldr max 0`. -/
theorem le_foldr_max (l : List Nat) (x : Nat) (hx : x ∈ l) : x ≤ l.foldr max 0 := by
  induction l with
  | nil => cases hx
  | cons a t ih =>
      rcases List.mem_cons.mp hx with h | h
      · rw [h]; exact le_max_left a (t.foldr max 0)
      · exact le_trans (ih h) (le_max_right a (t.foldr max 0))

/-- The id produced by `fresh_id` differs from every existing product id. -/
theorem fresh_id_not_used (db : DB) (q : Product) (hq : q ∈ db.products) :
    q.id ≠ fresh_id db := by
  have hle : q.id ≤ (db.products.map Product.id).foldr max 0 :=
    le_foldr_max _ _ (List.mem_map_of_mem Product.id hq)
  intro h
  rw [h] at hle
  exact absurd hle (by simp [fresh_id])

/-- After the delete handler's UPDATE, every row carrying the targeted id is
inactive. -/
theorem mem_deactivate_id (pid : Nat) (l : List Product) (q : Product)
    (hq : q ∈ l.map (fun p => if p.id == pid then { p with is_active := false } else p))
    (hid : q.id = pid) : q.is_active = false := by
  rcases List.mem_map.mp hq with ⟨r, _, hfr⟩
  by_cases h : r.id = pid
  · rw [if_pos (by simpa using h)] at hfr
    rw [← hfr]
  · rw [if_neg (by simpa using h)] at hfr
    exact absurd (hfr ▸ hid) h

/-- After the delete handler's UPDATE, no row both carries the targeted id and
is still active, so the lookup `find?` of an active row with that id fails. -/
theorem find?_after_deactivate (pid : Nat) (l : List Product) :
    (l.map (fun p => if p.id == pid then { p with is_active := false } else p)).find?
      (fun q => q.id == pid && q.is_active) = none := by
  rw [List.find?_eq_none]
  intro q hq
  simp only [Bool.and_eq_true, beq_iff_eq, not_and]
  intro hid
  simp [mem_deactivate_id pid l q hq hid]

/-- After the update handler's UPDATE, every row carrying the targeted id has
the request's field values. -/
theorem mem_update_id (pid : Nat) (input : ProductCreate) (l : List Product) (q : Product)
    (hq : q ∈ l.map (fun p => if p.id == pid then apply_update input p else p))
    (hid : q.id = pid) :
    q.category_id = input.category_id ∧ q.payload = input.payload := by
  rcases List.mem_map.mp hq with ⟨r, _, hfr⟩
  by_cases h : r.id = pid
  · rw [if_pos (by simpa using h)] at hfr
    rw [← hfr]
    exact ⟨rfl, rfl⟩
  · rw [if_neg (by simpa using h)] at hfr
    exact absurd (hfr ▸ hid) h

/-! ## Theorems for the claims -/

/-- C7: for every state and every input whose `category_id` references a
category that does not exist or is inactive, `create_product` fails with the
400 "Category not found or inactive" error and returns the state unchanged
(no product row is created). -/
theorem createProduct_invalid_category (input : ProductCreate) (db : DB)
    (hc : db.categories.find?
      (fun c => c.id == input.category_id && c.is_active) = none) :
    create_product input db =
      (Except.error (ApiError.badRequest "Category not found or inactive"), db) := by
  unfold create_product
  rw [hc]

/-- Witness for C7: creating a product under the missing category 999 fails
and leaves the store unchanged. -/
theorem createProduct_invalid_category_witness :
    create_product { category_id := 999, payload := 3 } exDB =
      (Except.error (ApiError.badRequest "Category not found or inactive"), exDB) :=
  createProduct_invalid_category { category_id := 999, payload := 3 } exDB (by rfl)

/-- C6: for every state in which the product with the given id exists and is
active but its referenced category is missing or inactive, `update_product`
fails with the 400 "Category not found or inactive" error (not 404) and
returns the state unchanged. -/
theorem updateProduct_inactive_category (pid : Nat) (input : ProductCreate)
    (db : DB) (p : Product)
    (hp : db.products.find? (fun q => q.id == pid && q.is_active) = some p)
    (hc : db.categories.find?
      (fun c => c.id == p.category_id && c.is_active) = none) :
    update_product pid input db =
      (Except.error (ApiError.badRequest "Category not found or inactive"), db) := by
  unfold update_product
  rw [hp]
  dsimp only
  rw [hc]

/-- Witness for C6: product 11 is active but its category 2 is inactive, so
updating it fails with the category error and changes nothing. -/
theorem updateProduct_inactive_category_witness :
    update_product 11 { category_id := 1, payload := 9 } exDB =
      (Except.error (ApiError.badRequest "Category not found or inactive"), exDB) :=
  updateProduct_inactive_category 11 { category_id := 1, payload := 9 } exDB
    { id := 11, category_id := 2, is_active := true, payload := 6 } (by rfl) (by rfl)

/-- C1 counterexample: in the concrete state `exDB`, product 11 exists and is
active while its referenced category 2 exists but is inactive, yet
`delete_product 11` does NOT fail with the 400 category error leaving the flag
true — the delete handler skips the category half of the integrity check: the
call succeeds and the product's `is_active` becomes false. -/
theorem deleteProduct_category_check_cex :
    (exDB.products.find? (fun q => q.id == 11 && q.is_active) =
       some { id := 11, category_id := 2, is_active := true, payload := 6 })
  ∧ (∃ c, c ∈ exDB.categories ∧ c.id = 2 ∧ c.is_active = false)
  ∧ ¬((delete_product 11 exDB).1 =
        Except.error (ApiError.badRequest "Category not found or inactive")
      ∧ ∀ q ∈ (delete_product 11 exDB).2.products, q.id = 11 → q.is_active = true) := by
  refine ⟨rfl, ⟨{ id := 2, is_active := false, payload := 0 }, by decide⟩, ?_⟩
  intro h
  exact Except.noConfusion h.1

/-- C1 amended: `delete_product` runs only the first step of the integrity
check. For every state in which the product with the given id exists and is
active but its referenced category is missing or inactive, the delete
nevertheless succeeds with the success acknowledgment and sets `is_active` to
false on every row with that id (no InvalidState error is ever produced). -/
theorem deleteProduct_ignores_category (pid : Nat) (db : DB) (p : Product)
    (hp : db.products.find? (fun q => q.id == pid && q.is_active) = some p)
    (_hc : db.categories.find?
      (fun c => c.id == p.category_id && c.is_active) = none) :
    (delete_product pid db).1 = Except.ok ("success", "Product marked as inactive")
  ∧ ∀ q ∈ (delete_product pid db).2.products, q.id = pid → q.is_active = false := by
  unfold delete_product
  rw [hp]
  dsimp only
  exact ⟨rfl, fun q hq hid => mem_deactivate_id pid db.products q hq hid⟩

/-- Witness for C1 amended: product 11 (active, category 2 inactive) is
deleted successfully and every row with id 11 ends up inactive. -/
theorem deleteProduct_ignores_category_witness :
    (delete_product 11 exDB).1 = Except.ok ("success", "Product marked as inactive")
  ∧ ∀ q ∈ (delete_product 11 exDB).2.products, q.id = 11 → q.is_active = false :=
  deleteProduct_ignores_category 11 exDB
    { id := 11, category_id := 2, is_active := true, payload := 6 } (by rfl) (by rfl)

/-- C5: `delete_product` is not idempotent. For every state in which the
product with the given id exists and is active, the first call succeeds and
flips every matching row's `is_active` to false, and the second call on the
resulting state fails with the 404 "Product not found or inactive" error. -/
theorem deleteProduct_not_idempotent (pid : Nat) (db : DB) (p : Product)
    (hp : db.products.find? (fun q => q.id == pid && q.is_active) = some p) :
    (delete_product pid db).1 = Except.ok ("success", "Product marked as inactive")
  ∧ (∀ q ∈ (delete_product pid db).2.products, q.id = pid → q.is_active = false)
  ∧ (delete_product pid (delete_product pid db).2).1 =
      Except.error (ApiError.notFound "Product not found or inactive") := by
  unfold delete_product
  rw [hp]
  dsimp only
  refine ⟨rfl, fun q hq hid => mem_deactivate_id pid db.products q hq hid, ?_⟩
  rw [find?_after_deactivate pid db.products]

/-- Witness for C5: deleting product 10 succeeds, and deleting it again on
the resulting state fails with 404. -/
theorem deleteProduct_not_idempotent_witness :
    (delete_product 10 exDB).1 = Except.ok ("success", "Product marked as inactive")
  ∧ (∀ q ∈ (delete_product 10 exDB).2.products, q.id = 10 → q.is_active = false)
  ∧ (delete_product 10 (delete_product 10 exDB).2).1 =
      Except.error (ApiError.notFound "Product not found or inactive") :=
  deleteProduct_not_idempotent 10 exDB
    { id := 10, category_id := 1, is_active := true, payload := 5 } (by rfl)

/-- C2: for every state in which the product with the given id is active and
its referenced category is active, `update_product` succeeds, returns the
post-update record (the request's field values on the existing row, with id
and `is_active` untouched), every row with that id in the new state carries
the request's field values, and rows with other ids are untouched. -/
theorem updateProduct_full_replace (pid : Nat) (input : ProductCreate)
    (db : DB) (p : Product)
    (hp : db.products.find? (fun q => q.id == pid && q.is_active) = some p)
    (hc : (db.categories.find?
      (fun c => c.id == p.category_id && c.is_active)).isSome) :
    (update_product pid input db).1 = Except.ok
      { id := p.id, category_id := input.category_id,
        is_active := p.is_active, payload := input.payload }
  ∧ { id := p.id, category_id := input.category_id,
      is_active := p.is_active, payload := input.payload }
        ∈ (update_product pid input db).2.products
  ∧ (∀ q ∈ (update_product pid input db).2.products, q.id = pid →
      q.category_id = input.category_id ∧ q.payload = input.payload)
  ∧ (∀ q ∈ db.products, q.id ≠ pid →
      q ∈ (update_product pid input db).2.products) := by
  rcases Option.isSome_iff_exists.mp hc with ⟨cat, hcat⟩
  have key : update_product pid input db =
      (Except.ok (apply_update input p),
       { db with products :=
           db.products.map (fun q => if q.id == pid then apply_update input q else q) }) := by
    unfold update_product
    rw [hp]
    dsimp only
    rw [hcat]
  rw [key]
  have hpmem : p ∈ db.products := List.mem_of_find?_eq_some hp
  have hps := List.find?_some hp
  rw [Bool.and_eq_true] at hps
  refine ⟨rfl, ?_, ?_, ?_⟩
  · exact List.mem_map.mpr ⟨p, hpmem, by rw [if_pos hps.1]; rfl⟩
  · exact fun q hq hid => mem_update_id pid input db.products q hq hid
  · intro q hq hne
    exact List.mem_map.mpr ⟨q, hq, by rw [if_neg (by simpa using hne)]⟩

/-- Witness for C2: updating the active product 10 (category 1 active)
replaces its fields with the request's values and returns the updated
record. -/
theorem updateProduct_full_replace_witness :
    (update_product 10 { category_id := 1, payload := 9 } exDB).1 = Except.ok
      { id := 10, category_id := 1, is_active := true, payload := 9 }
  ∧ { id := 10, category_id := 1, is_active := true, payload := 9 }
        ∈ (update_product 10 { category_id := 1, payload := 9 } exDB).2.products
  ∧ (∀ q ∈ (update_product 10 { category_id := 1, payload := 9 } exDB).2.products,
      q.id = 10 → q.category_id = 1 ∧ q.payload = 9)
  ∧ (∀ q ∈ exDB.products, q.id ≠ 10 →
      q ∈ (update_product 10 { category_id := 1, payload := 9 } exDB).2.products) :=
  updateProduct_full_replace 10 { category_id := 1, payload := 9 } exDB
    { id := 10, category_id := 1, is_active := true, payload := 5 } (by rfl) (by rfl)

/-- C3: `update_product` never validates the request's new `category_id`.
For every state in which the product with the given id is active and its
*current* category is active, the update succeeds even though the request's
`category_id` references a missing or inactive category, and the product's
`category_id` is set to that unvalidated value. -/
theorem updateProduct_skips_new_category_validation (pid : Nat)
    (input : ProductCreate) (db : DB) (p : Product)
    (hp : db.products.find? (fun q => q.id == pid && q.is_active) = some p)
    (hcur : (db.categories.find?
      (fun c => c.id == p.category_id && c.is_active)).isSome)
    (_hnew : db.categories.find?
      (fun c => c.id == input.category_id && c.is_active) = none) :
    (∃ r, (update_product pid input db).1 = Except.ok r ∧
       r.category_id = input.category_id)
  ∧ ∀ q ∈ (update_product pid input db).2.products, q.id = pid →
      q.category_id = input.category_id := by
  rcases Option.isSome_iff_exists.mp hcur with ⟨cat, hcat⟩
  have key : update_product pid input db =
      (Except.ok (apply_update input p),
       { db with products :=
           db.products.map (fun q => if q.id == pid then apply_update input q else q) }) := by
    unfold update_product
    rw [hp]
    dsimp only
    rw [hcat]
  rw [key]
  exact ⟨⟨apply_update input p, rfl, rfl⟩,
         fun q hq hid => (mem_update_id pid input db.products q hq hid).1⟩

/-- Witness for C3: product 10's current category 1 is active, the request
names the non-existent category 999, and the update succeeds, writing 999
into the product. -/
theorem updateProduct_skips_new_category_validation_witness :
    (∃ r, (update_product 10 { category_id := 999, payload := 9 } exDB).1 =
        Except.ok r ∧ r.category_id = 999)
  ∧ ∀ q ∈ (update_product 10 { category_id := 999, payload := 9 } exDB).2.products,
      q.id = 10 → q.category_id = 999 :=
  updateProduct_skips_new_category_validation 10 { category_id := 999, payload := 9 }
    exDB { id := 10, category_id := 1, is_active := true, payload := 5 }
    (by rfl) (by rfl) (by rfl)

/-- C4: a soft-deleted product is invisible. For every state with unique
product ids and every product row with `is_active = false`: it is absent from
the list returned by `get_all_products`, absent from any list returned by
`get_products_by_category` for any category id, and `get_product` on its id
fails with the 404 "Product not found or inactive" error. -/
theorem inactive_product_invisible (db : DB) (p : Product)
    (hmem : p ∈ db.products) (hinact : p.is_active = false)
    (hids : (db.products.map Product.id).Nodup) :
    (∀ l, (get_all_products db).1 = Except.ok l → p ∉ l)
  ∧ (∀ c l, (get_products_by_category c db).1 = Except.ok l → p ∉ l)
  ∧ (get_product p.id db).1 =
      Except.error (ApiError.notFound "Product not found or inactive") := by
  refine ⟨?_, ?_, ?_⟩
  · intro l hl hpl
    have hl' : Except.ok (db.products.filter (fun q => q.is_active)) =
        (Except.ok l : Except ApiError (List Product)) := hl
    cases hl'
    have := (List.mem_filter.mp hpl).2
    rw [hinact] at this
    exact Bool.noConfusion this
  · intro c l hl hpl
    cases hcat : db.categories.find? (fun k => k.id == c && k.is_active) with
    | none =>
        unfold get_products_by_category at hl
        rw [hcat] at hl
        exact Except.noConfusion hl
    | some cat =>
        unfold get_products_by_category at hl
        rw [hcat] at hl
        dsimp only at hl
        cases hl
        have := (List.mem_filter.mp hpl).2
        rw [Bool.and_eq_true, hinact] at this
        exact Bool.noConfusion this.2
  · have hnone : db.products.find? (fun q => q.id == p.id && q.is_active) = none := by
      rw [List.find?_eq_none]
      intro q hq
      simp only [Bool.and_eq_true, beq_iff_eq, not_and]
      intro hqid hact
      have hqp : q = p := List.inj_on_of_nodup_map hids hq hmem hqid
      rw [hqp, hinact] at hact
      exact Bool.noConfusion hact
    unfold get_product
    rw [hnone]

/-- Witness for C4: the soft-deleted product 12 of `exDB` is invisible to all
three read operations. -/
theorem inactive_product_invisible_witness :
    (∀ l, (get_all_products exDB).1 = Except.ok l →
       { id := 12, category_id := 1, is_active := false, payload := 7 } ∉ l)
  ∧ (∀ c l, (get_products_by_category c exDB).1 = Except.ok l →
       { id := 12, category_id := 1, is_active := false, payload := 7 } ∉ l)
  ∧ (get_product 12 exDB).1 =
      Except.error (ApiError.notFound "Product not found or inactive") :=
  inactive_product_invisible exDB
    { id := 12, category_id := 1, is_active := false, payload := 7 }
    (by decide) (by rfl) (by decide)

/-- C8: for every state and every input whose `category_id` references an
existing active category, `create_product` succeeds: the response is a new
record with `is_active = true`, the request's field values, and an id
distinct from every existing product id, and the new state is the old one
with exactly that record appended. -/
theorem createProduct_valid_category (input : ProductCreate) (db : DB)
    (hc : (db.categories.find?
      (fun c => c.id == input.category_id && c.is_active)).isSome) :
    ∃ r, create_product input db =
        (Except.ok r, { db with products := db.products ++ [r] })
      ∧ r.is_active = true
      ∧ r.category_id = input.category_id
      ∧ r.payload = input.payload
      ∧ ∀ q ∈ db.products, q.id ≠ r.id := by
  rcases Option.isSome_iff_exists.mp hc with ⟨cat, hcat⟩
  refine ⟨{ id := fresh_id db, category_id := input.category_id,
            is_active := true, payload := input.payload }, ?_, rfl, rfl, rfl, ?_⟩
  · unfold create_product
    rw [hcat]
  · exact fun q hq => fresh_id_not_used db q hq

/-- Witness for C8: creating a product under the active category 1 of `exDB`
succeeds with a fresh active record. -/
theorem createProduct_valid_category_witness :
    ∃ r, create_product { category_id := 1, payload := 3 } exDB =
        (Except.ok r, { exDB with products := exDB.products ++ [r] })
      ∧ r.is_active = true
      ∧ r.category_id = 1
      ∧ r.payload = 3
      ∧ ∀ q ∈ exDB.products, q.id ≠ r.id :=
  createProduct_valid_category { category_id := 1, payload := 3 } exDB (by rfl)

/-- C9: `get_products_by_category` fails with the 404 "Category not found or
inactive" error when the category is missing or inactive (state unchanged),
and otherwise returns exactly the products whose `category_id` matches and
whose `is_active` is true. -/
theorem getProductsByCategory_spec (c : Nat) (db : DB) :
    (db.categories.find? (fun k => k.id == c && k.is_active) = none →
      get_products_by_category c db =
        (Except.error (ApiError.notFound "Category not found or inactive"), db))
  ∧ ((db.categories.find? (fun k => k.id == c && k.is_active)).isSome →
      ∃ l, get_products_by_category c db = (Except.ok l, db) ∧
        ∀ q, q ∈ l ↔ (q ∈ db.products ∧ q.category_id = c ∧ q.is_active = true)) := by
  constructor
  · intro hc
    unfold get_products_by_category
    rw [hc]
  · intro hc
    rcases Option.isSome_iff_exists.mp hc with ⟨cat, hcat⟩
    refine ⟨db.products.filter (fun p => p.category_id == c && p.is_active), ?_, ?_⟩
    · unfold get_products_by_category
      rw [hcat]
    · intro q
      simp [List.mem_filter, and_assoc]

/-- Witness for C9: listing by the inactive category 2 fails with 404, while
listing by the active category 1 returns exactly its active products. -/
theorem getProductsByCategory_spec_witness :
    (get_products_by_category 2 exDB =
      (Except.error (ApiError.notFound "Category not found or inactive"), exDB))
  ∧ ∃ l, get_products_by_category 1 exDB = (Except.ok l, exDB) ∧
      ∀ q, q ∈ l ↔ (q ∈ exDB.products ∧ q.category_id = 1 ∧ q.is_active = true) :=
  ⟨(getProductsByCategory_spec 2 exDB).1 (by rfl),
   (getProductsByCategory_spec 1 exDB).2 (by rfl)⟩

/-- C10: no handler of the router ever writes the category table — for every
state and every input, each of the six operations returns a state whose
category list is exactly the input state's, whether the call succeeds or
fails. -/
theorem router_never_writes_categories (db : DB) (pid cid : Nat)
    (input : ProductCreate) :
    (get_all_products db).2.categories = db.categories
  ∧ (create_product input db).2.categories = db.categories
  ∧ (get_products_by_category cid db).2.categories = db.categories
  ∧ (get_product pid db).2.categories = db.categories
  ∧ (update_product pid input db).2.categories = db.categories
  ∧ (delete_product pid db).2.categories = db.categories := by
  refine ⟨rfl, ?_, ?_, ?_, ?_, ?_⟩
  · unfold create_product
    split <;> rfl
  · unfold get_products_by_category
    split <;> rfl
  · unfold get_product
    split
    · rfl
    · split <;> rfl
  · unfold update_product
    split
    · rfl
    · split <;> rfl
  · unfold delete_product
    split <;> rfl

end Ecom
